import Mathlib

/-!
Verification development for the orbit-break detection and stateful
navigation engine of the pysat repository (the `Orbits` class).

The engine's implementation file is not part of the sources available here
(only its test suite and callers are), so every definition below is
modelled from the natural-language specification of the system: the
BreakDetector (spec section 4.1), the OrbitNavigator state machine
(spec section 4.3), and the equality/representation helpers
(spec section 4.4).  Timestamps are natural numbers (minutes from the
start of the dataset), calendar days are natural numbers, and the cycling
index quantity is a rational number.
-/

/-- Modelled from the spec: the error taxonomy of section 7, as surfaced to
Python callers by the tests (ValueError, TypeError, StopIteration).
`configError` is the ConfigurationError raised for a non-monotonic counter;
`indexRange` is the IndexRangeError of `__getitem__`. -/
inductive PyError where
  | valueError
  | typeError
  | stopIteration
  | configError
  | indexRange
deriving DecidableEq

deriving instance DecidableEq for Except

/-- Modelled from the spec (section 3, OrbitInfo): immutable configuration
of the navigator.  `index` names the column carrying the cycling quantity,
`kind` is the break-detection strategy selector, `period` is the expected
approximate orbit duration in minutes. -/
structure OrbitInfo where
  index : String
  kind : String
  period : Nat
deriving DecidableEq

/-- The four supported `kind` literals of spec section 3. -/
def supportedKinds : List String :=
  ["local_time", "longitude", "orbit_number", "polar"]

/-- Modelled from the spec (section 3, IndexSeries): one sample of the
time-indexed data stream.  `t` is the timestamp (minutes), `day` the
calendar day the sample belongs to, `val` the index-quantity value. -/
structure Sample where
  t : Nat
  day : Nat
  val : Rat
deriving DecidableEq

/-- Modelled from the spec: the data stream the owner exposes to the
navigator, time-ordered, with the name of the column actually present and
the minimum-orbit-duration coalescing threshold (a configuration value per
spec section 9, in samples). -/
structure Dataset where
  colName : String
  samples : List Sample
  minSep : Nat
deriving DecidableEq

/-- Decides `a - b > c` for rationals by cross-multiplying numerators and
denominators, so the test is executable Int arithmetic. -/
def ratDiffGt (a b : Rat) (c : Nat) : Bool :=
  decide (a.num * (b.den : Int) - b.num * (a.den : Int)
    > (c : Int) * ((a.den : Int) * (b.den : Int)))

/-- Sign of `b - a` for rationals, computed on cross-multiplied
numerators. -/
def ratDiffSign (a b : Rat) : Int :=
  Int.sign (b.num * (a.den : Int) - a.num * (b.den : Int))

/-- Break offsets found by scanning adjacent pairs: offset `i` is reported
when `p v[i-1] v[i]` holds (`i` counts from 1). -/
def adjBreaksAux (p : Rat → Rat → Bool) : Rat → Nat → List Rat → List Nat
  | _, _, [] => []
  | prev, i, v :: vs =>
    if p prev v then i :: adjBreaksAux p v (i + 1) vs
    else adjBreaksAux p v (i + 1) vs

/-- Adjacent-pair break scan entry point. -/
def adjBreaks (p : Rat → Rat → Bool) : List Rat → List Nat
  | [] => []
  | v :: vs => adjBreaksAux p v 1 vs

/-- Modelled from the spec (section 4.1, polar kind): a zero crossing of
the derivative, reported where the sign of the first difference flips. -/
def polarBreaksAux : Rat → Rat → Nat → List Rat → List Nat
  | _, _, _, [] => []
  | v0, v1, i, v :: vs =>
    if ratDiffSign v0 v1 * ratDiffSign v1 v < 0 then i :: polarBreaksAux v1 v (i + 1) vs
    else polarBreaksAux v1 v (i + 1) vs

/-- Polar break scan entry point. -/
def polarBreaks : List Rat → List Nat
  | [] => []
  | [_] => []
  | v0 :: v1 :: vs => polarBreaksAux v0 v1 2 vs

/-- Checks that the values form a monotonically non-decreasing integer
counter (spec section 4.1, orbit_number kind). -/
def intCounterAux : Rat → List Rat → Bool
  | _, [] => true
  | prev, v :: vs => decide (v.den = 1) && decide (prev ≤ v) && intCounterAux v vs

/-- Integer-counter monotonicity check entry point. -/
def isIntCounter : List Rat → Bool
  | [] => true
  | v :: vs => decide (v.den = 1) && intCounterAux v vs

/-- Modelled from the spec (section 4.1): consecutive detected breaks
closer together than `minSep` samples are coalesced by dropping the
second. -/
def coalesceAux (minSep : Nat) : Nat → List Nat → List Nat
  | _, [] => []
  | last, b :: bs =>
    if b - last < minSep then coalesceAux minSep last bs
    else b :: coalesceAux minSep b bs

/-- Coalescing entry point: the first break is always kept. -/
def coalesce (minSep : Nat) : List Nat → List Nat
  | [] => []
  | b :: bs => b :: coalesceAux minSep b bs

/-- Modelled from the spec (section 4.1, BreakDetector.detect): given the
series (named columns of index values), the configured index key and kind,
return the offsets where a new orbit begins.  ValueError when the key is
absent or the kind is not supported; an empty series signals zero orbits
rather than raising; a non-monotonic counter for the orbit_number kind is
a ConfigurationError.  The wrap detectors break where the value drops by
more than half the cycle range (24 for local time, 360 for longitude). -/
def detect (minSep : Nat) (series : List (String × List Rat))
    (key : String) (kind : String) : Except PyError (List Nat) :=
  match series.lookup key with
  | none => .error .valueError
  | some vs =>
    if vs.isEmpty then .ok []
    else if kind = "local_time" then
      .ok (coalesce minSep (adjBreaks (fun a b => ratDiffGt a b 12) vs))
    else if kind = "longitude" then
      .ok (coalesce minSep (adjBreaks (fun a b => ratDiffGt a b 180) vs))
    else if kind = "orbit_number" then
      if isIntCounter vs then
        .ok (coalesce minSep (adjBreaks (fun a b => decide (a ≠ b)) vs))
      else .error .configError
    else if kind = "polar" then .ok (coalesce minSep (polarBreaks vs))
    else .error .valueError

/-- Splits `xs` into the segments delimited by the absolute offsets in the
break list; `prev` is the absolute offset already consumed. -/
def splitSegsAux {α : Type} (prev : Nat) : List Nat → List α → List (List α)
  | [], xs => [xs]
  | b :: rest, xs => xs.take (b - prev) :: splitSegsAux b rest (xs.drop (b - prev))

/-- Modelled from the spec: the orbit segments of a stream, split at the
detected break offsets (each offset is the first sample of a new orbit). -/
def splitSegs {α : Type} (bs : List Nat) (xs : List α) : List (List α) :=
  splitSegsAux 0 bs xs

/-- Modelled from the spec (section 4.3, NavigatorState): the navigator's
own state.  `pos = none` is the UNINITIALIZED state (current orbit number
reads 0); `pos = some k` means the navigator is positioned on the k-th
orbit (0-based) of the data stream. -/
structure Orbits where
  info : OrbitInfo
  orbitIndex : Option String
  pos : Option Nat
deriving DecidableEq

/-- Modelled from the spec (section 4.3 and 4.4): navigator construction
validates the configured kind, failing with ValueError when it is not one
of the four supported literals. -/
def mkOrbits (info : OrbitInfo) : Except PyError Orbits :=
  if info.kind ∈ supportedKinds then
    .ok { info := info, orbitIndex := some info.index, pos := none }
  else .error .valueError

/-- The break offsets of the loaded stream as the navigator computes them:
ValueError when `orbitIndex` has been forced to `none`, otherwise the
BreakDetector runs on the owner's single index column. -/
def Orbits.breaks (o : Orbits) (d : Dataset) : Except PyError (List Nat) :=
  match o.orbitIndex with
  | none => .error .valueError
  | some key =>
    detect d.minSep [(d.colName, d.samples.map (fun s => s.val))] key o.info.kind

/-- Total orbit count for the loaded stream given its break offsets: an
empty day has zero orbits (spec section 4.1). -/
def numWith (d : Dataset) (bs : List Nat) : Nat :=
  if d.samples.isEmpty then 0 else bs.length + 1

/-- One `next()` step once the breaks are known (spec section 4.3): from
UNINITIALIZED advance to the first orbit, otherwise advance by one;
running past the final orbit of the data is the StopIteration-class
end-of-sequence condition. -/
def nextAt (o : Orbits) (d : Dataset) (bs : List Nat) : Except PyError Orbits :=
  match o.pos with
  | none =>
    if numWith d bs = 0 then .error .stopIteration
    else .ok { o with pos := some 0 }
  | some k =>
    if k + 1 < numWith d bs then .ok { o with pos := some (k + 1) }
    else .error .stopIteration

/-- One `prev()` step once the breaks are known (spec section 4.3,
symmetric to `next()`): from UNINITIALIZED position on the final orbit of
the dataset; stepping back past the first orbit is end-of-sequence. -/
def prevAt (o : Orbits) (d : Dataset) (bs : List Nat) : Except PyError Orbits :=
  match o.pos with
  | none =>
    if numWith d bs = 0 then .error .stopIteration
    else .ok { o with pos := some (numWith d bs - 1) }
  | some k =>
    if k = 0 then .error .stopIteration
    else .ok { o with pos := some (k - 1) }

/-- Modelled from the spec (section 4.3): `next()`. -/
def Orbits.next (o : Orbits) (d : Dataset) : Except PyError Orbits :=
  match o.breaks d with
  | .error e => .error e
  | .ok bs => nextAt o d bs

/-- Modelled from the spec (section 4.3): `prev()`. -/
def Orbits.prev (o : Orbits) (d : Dataset) : Except PyError Orbits :=
  match o.breaks d with
  | .error e => .error e
  | .ok bs => prevAt o d bs

/-- The currently selected orbit slice (the data the navigator installs
into the owner's buffer); empty when unpositioned or misconfigured. -/
def Orbits.sliceD (o : Orbits) (d : Dataset) : List Sample :=
  match o.pos, o.breaks d with
  | some k, .ok bs => (splitSegs bs d.samples).getD k []
  | _, _ => []

/-- Calendar day on which a slice starts. -/
def sliceStartDay (sl : List Sample) : Nat :=
  match sl.head? with
  | some s => s.day
  | none => 0

/-- Modelled from the spec: `current_orbit_number`, 0 when nothing is
loaded, otherwise the 1-based rank of the selected orbit among the orbits
starting on the same calendar day. -/
def Orbits.current (o : Orbits) (d : Dataset) : Nat :=
  match o.pos, o.breaks d with
  | some k, .ok bs =>
    1 + (((splitSegs bs d.samples).take k).filter
      (fun sl => sliceStartDay sl == sliceStartDay ((splitSegs bs d.samples).getD k []))).length
  | _, _ => 0

/-- The loaded date the owner observes after a navigator operation: the
day the selected slice starts on. -/
def Orbits.loadedDate (o : Orbits) (d : Dataset) : Nat :=
  sliceStartDay (o.sliceD d)

/-- Iterated `next()` calls: `iterNext d n o` performs `n` calls. -/
def iterNext (d : Dataset) : Nat → Orbits → Except PyError Orbits
  | 0, o => .ok o
  | n + 1, o =>
    match iterNext d n o with
    | .error e => .error e
    | .ok o1 => o1.next d

/-- Iterated `prev()` calls: `iterPrev d n o` performs `n` calls. -/
def iterPrev (d : Dataset) : Nat → Orbits → Except PyError Orbits
  | 0, o => .ok o
  | n + 1, o =>
    match o.prev d with
    | .error e => .error e
    | .ok o1 => iterPrev d n o1

/-- Modelled from the spec (section 4.3, overlap rejection): `next()` on
the outer-iteration path, where `emitted` is the largest timestamp already
emitted by the previous outer-iteration step.  A candidate orbit whose
first sample was already emitted raises ValueError instead of being
emitted a second time. -/
def Orbits.nextIter (o : Orbits) (d : Dataset) (emitted : Option Nat) :
    Except PyError Orbits :=
  match o.next d with
  | .error e => .error e
  | .ok o1 =>
    match emitted, (o1.sliceD d).head? with
    | some te, some s => if s.t ≤ te then .error .valueError else .ok o1
    | some _, none => .ok o1
    | none, _ => .ok o1

/-- Modelled from the spec (sections 4.3 and 5): the day-scan of a
rollover across a multi-day data gap.  Starting after `day`, days are
fetched one at a time through the owner's loader until data is found or
the day-scan budget is exhausted, which is the StopIteration-class
end-of-sequence condition. -/
def scanForwardData (loadDay : Nat → List Sample) : Nat → Nat →
    Except PyError (Nat × List Sample)
  | _, 0 => .error .stopIteration
  | day, b + 1 =>
    match loadDay (day + 1) with
    | [] => scanForwardData loadDay (day + 1) b
    | s :: rest => .ok (day + 1, s :: rest)

/-- Modelled from the spec (section 4.3): `__getitem__(i)`.  `none` models
Python's `None` index.  Non-negative `i` below the orbit count positions
absolutely; exactly one past the last orbit attempts the single-day
rollover (one further `next()`); other out-of-range non-negative `i` is an
IndexRangeError; negative `i` counts back from the last orbit. -/
def Orbits.getitem (o : Orbits) (d : Dataset) (i? : Option Int) :
    Except PyError Orbits :=
  match i? with
  | none => .error .typeError
  | some i =>
    match o.breaks d with
    | .error e => .error e
    | .ok bs =>
      if 0 ≤ i then
        if i < (numWith d bs : Int) then .ok { o with pos := some i.toNat }
        else if i = (numWith d bs : Int) then
          nextAt { o with pos := some (numWith d bs - 1) } d bs
        else .error .indexRange
      else
        if -(numWith d bs : Int) ≤ i then
          .ok { o with pos := some ((numWith d bs : Int) + i).toNat }
        else .error .indexRange

/-- The local-time index of the concrete scenario of spec section 8: a day
of samples at 1-minute cadence whose local time rises linearly from 0 to
24 over exactly 97 minutes and repeats. -/
def mltVal (i : Nat) : Rat := mkRat (24 * (i % 97)) 97

/-- The concrete day of samples of the spec section 8 scenario: minute `i`
of the day carries local time `mltVal i`. -/
def c2Samples : List Sample :=
  (List.range 1440).map (fun i => { t := i, day := 0, val := mltVal i })

/-- The owner's buffer for the spec section 8 scenario. -/
def c2Data : Dataset := { colName := "mlt", samples := c2Samples, minSep := 48 }

/-- A navigator in the UNINITIALIZED state configured for the local-time
kind with a 97-minute period. -/
def c2Nav : Orbits :=
  { info := { index := "mlt", kind := "local_time", period := 97 },
    orbitIndex := some "mlt", pos := none }

/-- Modelled from the spec (section 4.4): the observable attribute state
of a navigator object as structural equality sees it — the immutable
configuration, the current orbit number, the selected orbit data (if
positioned), and the list of attribute names present on the object (so
removed or added attributes are observable). -/
structure OrbitsFull where
  info : OrbitInfo
  orbitIndex : Option String
  current : Nat
  selData : Option (List Sample)
  attrs : List String
deriving DecidableEq

/-- The attribute names an unmodified navigator object carries. -/
def stdAttrs : List String :=
  ["orbit_info", "orbit_index", "current", "selected_data"]

/-- A Python value a navigator can be compared against: either another
navigator object or an object of a different concrete type. -/
inductive PyVal where
  | orbitsVal (o : OrbitsFull)
  | otherVal (tag : String)

/-- Modelled from the spec (section 4.4, equals): two navigators are equal
iff they have the same orbit_info, the same current orbit number and
identical selected data, with the same attribute set; a navigator is never
equal to an object of a different concrete type. -/
def OrbitsFull.equals (a : OrbitsFull) (b : PyVal) : Bool :=
  match b with
  | .orbitsVal o =>
    decide (a.attrs = o.attrs ∧ a.info = o.info ∧ a.current = o.current
      ∧ a.selData = o.selData)
  | .otherVal _ => false

/-- A field-by-field copy of the navigator object, modelling `copy()`. -/
def OrbitsFull.copy (o : OrbitsFull) : OrbitsFull :=
  { info := o.info, orbitIndex := o.orbitIndex, current := o.current,
    selData := o.selData, attrs := o.attrs }

/-- Modelled from the spec (section 4.4, repr): the printable
representation encodes the orbit_info configuration and nothing about
currently selected data or timestamps. -/
def OrbitsFull.reprStr (o : OrbitsFull) : String :=
  "Orbits(orbit_index=" ++ o.info.index ++ ", kind=" ++ o.info.kind ++
    ", orbit_period=Timedelta(minutes=" ++ toString o.info.period ++ "))"

/-- The keyword arguments the representation encodes. -/
structure OrbitsReprKwargs where
  index : String
  kind : String
  period : Nat
deriving DecidableEq

/-- The configuration content of the representation. -/
def OrbitsFull.reprData (o : OrbitsFull) : OrbitsReprKwargs :=
  { index := o.info.index, kind := o.info.kind, period := o.info.period }

/-- Modelled from the spec (section 4.4): re-evaluating the representation
against the same owner construction builds a fresh, unpositioned navigator
from the encoded configuration. -/
def rebuildFromRepr (r : OrbitsReprKwargs) : OrbitsFull :=
  { info := { index := r.index, kind := r.kind, period := r.period },
    orbitIndex := some r.index, current := 0, selData := none,
    attrs := stdAttrs }

/-- A small synthetic local-time stream used to instantiate the generic
navigation theorems on concrete inputs: the index value alternates between
20 and 0, so a wrap (drop by more than 12) occurs at every odd offset and
every orbit after the first holds exactly two samples. -/
def wSamples : List Sample :=
  (List.range 46).map (fun i =>
    { t := i, day := i / 23, val := if i % 2 = 0 then (20 : Rat) else 0 })

/-- Owner buffer for the synthetic alternating stream. -/
def wData : Dataset := { colName := "mlt", samples := wSamples, minSep := 1 }

/-- A navigator positioned on the first orbit of the alternating stream. -/
def wNav : Orbits :=
  { info := { index := "mlt", kind := "local_time", period := 2 },
    orbitIndex := some "mlt", pos := some 0 }

/-- A short day whose local-time index completes two full 5-minute orbits
and then ends after two more samples, leaving a trailing partial orbit. -/
def shortSamples : List Sample :=
  (List.range 12).map (fun i => { t := i, day := 0, val := mkRat (24 * (i % 5)) 5 })

/-- Owner buffer for the short day with a trailing partial orbit. -/
def shortData : Dataset := { colName := "mlt", samples := shortSamples, minSep := 2 }

/-- An UNINITIALIZED navigator for the short day. -/
def shortNav : Orbits :=
  { info := { index := "mlt", kind := "local_time", period := 5 },
    orbitIndex := some "mlt", pos := none }

/-- The owner buffer loaded by the second step of an overlapping outer
iteration (window width three days, step two days): its samples start at
minute 100, inside the stretch the first step already emitted. -/
def overlapSamples : List Sample :=
  (List.range 10).map (fun i => { t := 100 + i, day := 2, val := mkRat (24 * (i % 5)) 5 })

/-- Owner buffer for the overlapping second iteration window. -/
def overlapData : Dataset := { colName := "mlt", samples := overlapSamples, minSep := 2 }

/-- An UNINITIALIZED navigator for the overlapping window. -/
def overlapNav : Orbits :=
  { info := { index := "mlt", kind := "local_time", period := 5 },
    orbitIndex := some "mlt", pos := none }

/-- A concrete unpositioned navigator object used to instantiate the
equality and representation theorems. -/
def navObjA : OrbitsFull :=
  { info := { index := "mlt", kind := "local_time", period := 97 },
    orbitIndex := some "mlt", current := 0, selData := none, attrs := stdAttrs }

/-- The same object with the `orbit_index` attribute removed, modelling
attribute deletion from a copy. -/
def navObjMissing : OrbitsFull :=
  { info := { index := "mlt", kind := "local_time", period := 97 },
    orbitIndex := some "mlt", current := 0, selData := none,
    attrs := ["orbit_info", "current", "selected_data"] }

/-- A navigator whose orbit index has been forced to `None` before the
first `next()` call. -/
def noIdxNav : Orbits :=
  { info := { index := "mlt", kind := "local_time", period := 97 },
    orbitIndex := none, pos := none }

/-- A navigator configured with an index key that is absent from the
loaded series. -/
def wrongKeyNav : Orbits :=
  { info := { index := "magnetic local time", kind := "local_time", period := 97 },
    orbitIndex := some "magnetic local time", pos := none }

theorem splitSegsAux_flatten {α : Type} (prev : Nat) (bs : List Nat) (xs : List α) :
    (splitSegsAux prev bs xs).flatten = xs := by
  induction bs generalizing prev xs with
  | nil => simp [splitSegsAux]
  | cons b rest ih => simp [splitSegsAux, ih]

theorem splitSegs_flatten {α : Type} (bs : List Nat) (xs : List α) :
    (splitSegs bs xs).flatten = xs :=
  splitSegsAux_flatten 0 bs xs

theorem splitSegsAux_length {α : Type} (prev : Nat) (bs : List Nat) (xs : List α) :
    (splitSegsAux prev bs xs).length = bs.length + 1 := by
  induction bs generalizing prev xs with
  | nil => rfl
  | cons b rest ih => simp [splitSegsAux, ih]

theorem splitSegs_length {α : Type} (bs : List Nat) (xs : List α) :
    (splitSegs bs xs).length = bs.length + 1 :=
  splitSegsAux_length 0 bs xs

theorem breaks_with_pos (o : Orbits) (d : Dataset) (p : Option Nat) :
    ({ o with pos := p } : Orbits).breaks d = o.breaks d := rfl

theorem next_then_prev {o o' : Orbits} {d : Dataset} {k : Nat}
    (hp : o.pos = some k) (h : o.next d = .ok o') :
    o'.pos = some (k + 1) ∧ o'.prev d = .ok o := by
  cases hb : o.breaks d with
  | error e =>
    unfold Orbits.next at h
    rw [hb] at h
    simp at h
  | ok bs =>
    unfold Orbits.next at h
    rw [hb] at h
    unfold nextAt at h
    rw [hp] at h
    simp only [] at h
    by_cases hlt : k + 1 < numWith d bs
    · rw [if_pos hlt] at h
      have ho' : o' = { o with pos := some (k + 1) } := by
        cases h; rfl
      subst ho'
      refine ⟨rfl, ?_⟩
      unfold Orbits.prev
      rw [breaks_with_pos o d (some (k + 1)), hb]
      unfold prevAt
      simp only [Nat.succ_ne_zero, if_false, Nat.add_sub_cancel]
      cases o with
      | mk i oi p =>
        simp only [Orbits.mk.injEq] at hp ⊢
        simp [hp]
    · rw [if_neg hlt] at h
      simp at h

theorem iterNext_restore {d : Dataset} {o : Orbits} {k : Nat} (hp : o.pos = some k) :
    ∀ n o', iterNext d n o = .ok o' →
      o'.pos = some (k + n) ∧ iterPrev d n o' = .ok o := by
  intro n
  induction n with
  | zero =>
    intro o' h
    unfold iterNext at h
    cases h
    exact ⟨hp, rfl⟩
  | succ n ih =>
    intro o' h
    unfold iterNext at h
    cases hm : iterNext d n o with
    | error e => rw [hm] at h; simp at h
    | ok o1 =>
      rw [hm] at h
      simp only [] at h
      obtain ⟨hpos1, hprev1⟩ := ih o1 hm
      obtain ⟨hpos', hprev'⟩ := next_then_prev hpos1 h
      refine ⟨hpos', ?_⟩
      unfold iterPrev
      rw [hprev']
      exact hprev1

/-- C1: for a navigator positioned on some orbit, `n` successful `next()`
calls followed by `n` `prev()` calls restore the navigator state exactly
(hence the selected slice, the current orbit number and the loaded date,
which are functions of that state and of the owner's data).  The dataset
is arbitrary, so the property holds whatever day boundaries, data gaps or
calendar boundaries the stream contains. -/
theorem orbits_next_prev_roundtrip {d : Dataset} {o o' : Orbits} {n k : Nat}
    (hp : o.pos = some k) (h : iterNext d n o = .ok o') :
    iterPrev d n o' = .ok o :=
  (iterNext_restore hp n o' h).2

/-- Witness for C1: on the concrete alternating stream, ten `next()` calls
from the first orbit succeed, and ten `prev()` calls return exactly to the
starting state. -/
theorem orbits_next_prev_roundtrip_witness :
    iterNext wData 10 wNav = .ok { wNav with pos := some 10 } ∧
    iterPrev wData 10 { wNav with pos := some 10 } = .ok wNav :=
  ⟨by decide, orbits_next_prev_roundtrip rfl (by decide)⟩

set_option maxRecDepth 40000 in
/-- C2: on a day of 1-minute samples whose local-time index rises linearly
from 0 to 24 over exactly 97 minutes and repeats, the first `next()` from
the UNINITIALIZED state selects the slice of samples at minutes 0 through
96 (that is, spanning t0 to t0 plus 96 minutes) with current orbit number
1, and a second `next()` selects the slice at minutes 97 through 193 with
current orbit number 2. -/
theorem orbits_local_time_first_two_orbits :
    c2Nav.next c2Data = .ok { c2Nav with pos := some 0 } ∧
    ({ c2Nav with pos := some 0 } : Orbits).sliceD c2Data
      = (List.range 97).map (fun i => { t := i, day := 0, val := mltVal i }) ∧
    ({ c2Nav with pos := some 0 } : Orbits).current c2Data = 1 ∧
    ({ c2Nav with pos := some 0 } : Orbits).next c2Data = .ok { c2Nav with pos := some 1 } ∧
    ({ c2Nav with pos := some 1 } : Orbits).sliceD c2Data
      = (List.range' 97 97).map (fun i => { t := i, day := 0, val := mltVal i }) ∧
    ({ c2Nav with pos := some 1 } : Orbits).current c2Data = 2 := by
  refine ⟨?_, ?_, ?_, ?_, ?_, ?_⟩
  · decide
  · decide
  · decide
  · decide
  · decide
  · decide

theorem next_ok_none {o o' : Orbits} {d : Dataset}
    (hp : o.pos = none) (h : o.next d = .ok o') :
    o' = { o with pos := some 0 } := by
  cases hb : o.breaks d with
  | error e =>
    unfold Orbits.next at h
    rw [hb] at h
    simp at h
  | ok bs =>
    unfold Orbits.next at h
    rw [hb] at h
    unfold nextAt at h
    rw [hp] at h
    simp only [] at h
    by_cases h0 : numWith d bs = 0
    · rw [if_pos h0] at h; simp at h
    · rw [if_neg h0] at h; cases h; rfl

theorem next_ok_some {o o' : Orbits} {d : Dataset} {k : Nat}
    (hp : o.pos = some k) (h : o.next d = .ok o') :
    o' = { o with pos := some (k + 1) } := by
  cases hb : o.breaks d with
  | error e =>
    unfold Orbits.next at h
    rw [hb] at h
    simp at h
  | ok bs =>
    unfold Orbits.next at h
    rw [hb] at h
    unfold nextAt at h
    rw [hp] at h
    simp only [] at h
    by_cases hlt : k + 1 < numWith d bs
    · rw [if_pos hlt] at h; cases h; rfl
    · rw [if_neg hlt] at h; simp at h

theorem iterNext_from_none {d : Dataset} {o : Orbits} (hp : o.pos = none) :
    ∀ n o', iterNext d (n + 1) o = .ok o' → o' = { o with pos := some n } := by
  intro n
  induction n with
  | zero =>
    intro o' h
    unfold iterNext at h
    simp only [] at h
    exact next_ok_none hp h
  | succ n ih =>
    intro o' h
    unfold iterNext at h
    cases hm : iterNext d (n + 1) o with
    | error e => rw [hm] at h; simp at h
    | ok o1 =>
      rw [hm] at h
      simp only [] at h
      have ho1 := ih o1 hm
      subst ho1
      exact @next_ok_some { o with pos := some n } o' d n rfl h

theorem sliceD_set_pos (o : Orbits) (d : Dataset) (bs : List Nat) (k : Nat)
    (hb : o.breaks d = .ok bs) :
    ({ o with pos := some k } : Orbits).sliceD d = (splitSegs bs d.samples).getD k [] := by
  unfold Orbits.sliceD
  rw [show ({ o with pos := some k } : Orbits).breaks d = .ok bs from
    (breaks_with_pos o d (some k)).trans hb]

/-- C7: the orbit slices of a loaded stream are a partition of it — their
concatenation reconstructs the original input order with no sample
duplicated or dropped — and when the stream's timestamps are strictly
increasing the slices are strictly time-ordered and pairwise
non-overlapping; moreover the slice selected by the (n+1)-th successful
`next()` call from the UNINITIALIZED state is exactly the n-th slice of
that partition, so sequential `next()` calls emit the partition in
order. -/
theorem orbits_slices_partition {o : Orbits} {d : Dataset} {bs : List Nat}
    (hb : o.breaks d = .ok bs)
    (hsort : d.samples.Pairwise (fun a b => a.t < b.t)) :
    (splitSegs bs d.samples).flatten = d.samples ∧
    (splitSegs bs d.samples).Pairwise
      (fun s1 s2 => ∀ x ∈ s1, ∀ y ∈ s2, x.t < y.t) ∧
    ∀ n o', o.pos = none → iterNext d (n + 1) o = .ok o' →
      o'.sliceD d = (splitSegs bs d.samples).getD n [] := by
  refine ⟨splitSegs_flatten bs d.samples, ?_, ?_⟩
  · have h1 : (splitSegs bs d.samples).flatten.Pairwise
        (fun a b : Sample => a.t < b.t) := by
      rw [splitSegs_flatten]
      exact hsort
    exact (List.pairwise_flatten.mp h1).2
  · intro n o' hpnone hiter
    have ho' := iterNext_from_none hpnone n o' hiter
    subst ho'
    exact sliceD_set_pos o d bs n hb

/-- Witness for C7: on the concrete short day the two breaks produce three
slices that concatenate back to the stream, are strictly time-ordered and
non-overlapping, and the first `next()` emits the first slice. -/
theorem orbits_slices_partition_witness :
    (splitSegs [5, 10] shortData.samples).flatten = shortData.samples ∧
    (splitSegs [5, 10] shortData.samples).Pairwise
      (fun s1 s2 => ∀ x ∈ s1, ∀ y ∈ s2, x.t < y.t) ∧
    ({ shortNav with pos := some 0 } : Orbits).sliceD shortData
      = (splitSegs [5, 10] shortData.samples).getD 0 [] := by
  have h := @orbits_slices_partition shortNav shortData [5, 10] (by decide) (by decide)
  exact ⟨h.1, h.2.1, h.2.2 0 { shortNav with pos := some 0 } rfl (by decide)⟩

theorem head?_eq_getD {α : Type} (l : List α) (d0 : α) (h : l ≠ []) :
    l.head? = some (l.getD 0 d0) := by
  cases l with
  | nil => exact absurd rfl h
  | cons a t => rfl

theorem getLast?_eq_getD {α : Type} (l : List α) (d0 : α) (h : l ≠ []) :
    l.getLast? = some (l.getD (l.length - 1) d0) := by
  cases l with
  | nil => exact absurd rfl h
  | cons a t =>
    rw [List.getLast?_eq_getElem?, List.getD_eq_getElem?_getD]
    have hlt : (a :: t).length - 1 < (a :: t).length := by
      simp
    rw [List.getElem?_eq_getElem hlt]
    rfl

theorem splitSegs_ne_nil {α : Type} (bs : List Nat) (xs : List α) :
    splitSegs bs xs ≠ [] := by
  intro hcon
  have := splitSegs_length bs xs
  rw [hcon] at this
  simp at this

theorem numWith_of_ne_nil {d : Dataset} (bs : List Nat) (hne : d.samples ≠ []) :
    numWith d bs = bs.length + 1 := by
  unfold numWith
  rw [if_neg]
  simp [hne]

/-- C10: from the UNINITIALIZED state with nothing selected, `next()`
positions the navigator on the first orbit slice of the dataset, and
`prev()` positions it on the final orbit slice of the entire dataset; the
final slice is returned as-is (it is the last cell of the partition, which
may hold fewer samples than a full orbit period — the witness exhibits
such a trailing partial orbit). -/
theorem orbits_uninit_endpoints {o : Orbits} {d : Dataset} {bs : List Nat}
    (hp : o.pos = none) (hb : o.breaks d = .ok bs) (hne : d.samples ≠ []) :
    o.next d = .ok { o with pos := some 0 } ∧
    (splitSegs bs d.samples).head?
      = some (({ o with pos := some 0 } : Orbits).sliceD d) ∧
    o.prev d = .ok { o with pos := some (numWith d bs - 1) } ∧
    (splitSegs bs d.samples).getLast?
      = some (({ o with pos := some (numWith d bs - 1) } : Orbits).sliceD d) := by
  have hnum : numWith d bs = bs.length + 1 := numWith_of_ne_nil bs hne
  have hnum0 : numWith d bs ≠ 0 := by rw [hnum]; simp
  refine ⟨?_, ?_, ?_, ?_⟩
  · unfold Orbits.next
    rw [hb]
    unfold nextAt
    rw [hp]
    simp only []
    rw [if_neg hnum0]
  · rw [sliceD_set_pos o d bs 0 hb]
    exact head?_eq_getD _ _ (splitSegs_ne_nil bs d.samples)
  · unfold Orbits.prev
    rw [hb]
    unfold prevAt
    rw [hp]
    simp only []
    rw [if_neg hnum0]
  · rw [sliceD_set_pos o d bs (numWith d bs - 1) hb]
    rw [getLast?_eq_getD _ [] (splitSegs_ne_nil bs d.samples)]
    rw [splitSegs_length, ← hnum]

/-- Witness for C10: on the concrete short day, `next()` from
UNINITIALIZED selects the first slice and `prev()` selects the final
slice, which is a trailing partial orbit of two samples — fewer than the
five-minute period — returned as-is. -/
theorem orbits_uninit_endpoints_witness :
    (shortNav.next shortData = .ok { shortNav with pos := some 0 } ∧
      (splitSegs [5, 10] shortData.samples).head?
        = some (({ shortNav with pos := some 0 } : Orbits).sliceD shortData) ∧
      shortNav.prev shortData
        = .ok { shortNav with pos := some (numWith shortData [5, 10] - 1) } ∧
      (splitSegs [5, 10] shortData.samples).getLast?
        = some (({ shortNav with pos := some (numWith shortData [5, 10] - 1) }
            : Orbits).sliceD shortData)) ∧
    (({ shortNav with pos := some (numWith shortData [5, 10] - 1) }
        : Orbits).sliceD shortData).length < shortNav.info.period :=
  ⟨@orbits_uninit_endpoints shortNav shortData [5, 10] rfl (by decide) (by decide),
    by decide⟩

/-- C6: `__getitem__` on a loaded stream with `k` orbits: a non-negative
index `i < k` selects the (i+1)-th orbit counting from the first (0-based
position `i`), a negative index with `-k ≤ i < 0` selects position `k + i`
counting back from the last, a non-negative index strictly beyond `k`
(hence beyond one-past-the-last, which instead attempts the single-day
rollover) raises the domain error, and a `None` index raises TypeError. -/
theorem orbits_getitem_semantics {o : Orbits} {d : Dataset} {bs : List Nat} (i : Int)
    (hb : o.breaks d = .ok bs) :
    (0 ≤ i → i < (numWith d bs : Int) →
      o.getitem d (some i) = .ok { o with pos := some i.toNat }) ∧
    (-(numWith d bs : Int) ≤ i → i < 0 →
      o.getitem d (some i)
        = .ok { o with pos := some ((numWith d bs : Int) + i).toNat }) ∧
    ((numWith d bs : Int) < i → o.getitem d (some i) = .error .indexRange) ∧
    o.getitem d none = .error .typeError := by
  refine ⟨?_, ?_, ?_, rfl⟩
  · intro h0 hlt
    unfold Orbits.getitem
    rw [hb]
    simp only []
    rw [if_pos h0, if_pos hlt]
  · intro hge hneg
    unfold Orbits.getitem
    rw [hb]
    simp only []
    rw [if_neg (not_le.mpr hneg), if_pos hge]
  · intro hgt
    have h0 : 0 ≤ i := le_of_lt (lt_of_le_of_lt (Int.natCast_nonneg _) hgt)
    unfold Orbits.getitem
    rw [hb]
    simp only []
    rw [if_pos h0, if_neg (not_lt.mpr (le_of_lt hgt)), if_neg (ne_of_gt hgt)]

/-- Witness for C6: on the concrete short day with three orbits, index 1
selects the second orbit, index -1 selects the last orbit, index 5 is a
domain error, and a `None` index is a type error. -/
theorem orbits_getitem_semantics_witness :
    shortNav.getitem shortData (some 1) = .ok { shortNav with pos := some 1 } ∧
    shortNav.getitem shortData (some (-1)) = .ok { shortNav with pos := some 2 } ∧
    shortNav.getitem shortData (some 5) = .error .indexRange ∧
    shortNav.getitem shortData none = .error .typeError := by
  have h1 := @orbits_getitem_semantics shortNav shortData [5, 10] 1 (by decide)
  have h2 := @orbits_getitem_semantics shortNav shortData [5, 10] (-1) (by decide)
  have h5 := @orbits_getitem_semantics shortNav shortData [5, 10] 5 (by decide)
  exact ⟨h1.1 (by decide) (by decide), h2.2.1 (by decide) (by decide),
    h5.2.2.1 (by decide), h1.2.2.2⟩

/-- C5: a configuration whose kind is not one of the four supported
literals fails navigator construction with ValueError; a navigator whose
orbit index has been forced to `None`, or whose configured index key is
absent from the loaded series, fails its first `next()` call with
ValueError. -/
theorem orbits_config_errors (info : OrbitInfo) (o : Orbits) (d : Dataset)
    (key : String) :
    (info.kind ∉ supportedKinds → mkOrbits info = .error .valueError) ∧
    (o.orbitIndex = none → o.next d = .error .valueError) ∧
    (o.orbitIndex = some key → key ≠ d.colName →
      o.next d = .error .valueError) := by
  refine ⟨?_, ?_, ?_⟩
  · intro hk
    unfold mkOrbits
    rw [if_neg hk]
  · intro hoi
    unfold Orbits.next Orbits.breaks
    rw [hoi]
  · intro hoi hne
    unfold Orbits.next Orbits.breaks
    rw [hoi]
    simp only []
    unfold detect
    have hkb : (key == d.colName) = false := beq_eq_false_iff_ne.mpr hne
    have hl : List.lookup key [(d.colName, d.samples.map (fun s => s.val))]
        = none := by
      simp [List.lookup, hkb]
    rw [hl]

/-- Witness for C5: the kind "cats" is rejected at construction; a
navigator with its orbit index forced to `None`, and one whose key is
absent from the loaded column, both fail `next()` with ValueError. -/
theorem orbits_config_errors_witness :
    mkOrbits { index := "mlt", kind := "cats", period := 97 }
      = .error .valueError ∧
    noIdxNav.next shortData = .error .valueError ∧
    wrongKeyNav.next shortData = .error .valueError := by
  have h1 := orbits_config_errors { index := "mlt", kind := "cats", period := 97 }
    noIdxNav shortData "mlt"
  have h2 := orbits_config_errors { index := "mlt", kind := "cats", period := 97 }
    wrongKeyNav shortData "magnetic local time"
  exact ⟨h1.1 (by decide), h1.2.1 rfl, h2.2.2 rfl (by decide)⟩

theorem scanForwardData_all_empty (loadDay : Nat → List Sample) :
    ∀ budget day, (∀ j, day < j → j ≤ day + budget → loadDay j = []) →
      scanForwardData loadDay day budget = .error .stopIteration := by
  intro budget
  induction budget with
  | zero => intro day h; rfl
  | succ b ih =>
    intro day h
    unfold scanForwardData
    rw [h (day + 1) (by omega) (by omega)]
    exact ih (day + 1) (fun j h1 h2 => h j (by omega) (by omega))

/-- C4: an empty day is a valid state — the BreakDetector reports zero
breaks and the orbit count for the empty stream is zero, with no error —
while a `next()`/`prev()` day-scan that exhausts its budget without
finding any data ends with the StopIteration-class end-of-sequence error
and no other failure. -/
theorem orbits_empty_day_scan (key kind : String) (minSep : Nat)
    (loadDay : Nat → List Sample) (day budget : Nat)
    (hempty : ∀ j, day < j → j ≤ day + budget → loadDay j = []) :
    detect minSep [(key, [])] key kind = .ok [] ∧
    numWith { colName := key, samples := [], minSep := minSep } [] = 0 ∧
    scanForwardData loadDay day budget = .error .stopIteration := by
  refine ⟨?_, rfl, scanForwardData_all_empty loadDay budget day hempty⟩
  unfold detect
  have hl : List.lookup key [(key, ([] : List Rat))] = some [] := by
    simp [List.lookup]
  rw [hl]
  rfl

/-- Witness for C4: a loader with no data anywhere exhausts a five-day
budget and signals end-of-sequence, while the empty day itself yields
zero orbits without raising. -/
theorem orbits_empty_day_scan_witness :
    detect 1 [("mlt", [])] "mlt" "local_time" = .ok [] ∧
    numWith { colName := "mlt", samples := [], minSep := 1 } [] = 0 ∧
    scanForwardData (fun _ => []) 0 5 = .error .stopIteration :=
  orbits_empty_day_scan "mlt" "local_time" 1 (fun _ => []) 0 5
    (fun _ _ _ => rfl)

/-- C3: when the outer-iteration window overlaps the previous step (window
width larger than the step size), a `next()` call whose candidate orbit
begins at or before the largest timestamp already emitted by the previous
outer-iteration step raises ValueError instead of emitting the duplicate
orbit. -/
theorem orbits_overlap_rejection {o o' : Orbits} {d : Dataset} {te : Nat}
    {s : Sample} (h1 : o.next d = .ok o')
    (h2 : (o'.sliceD d).head? = some s) (h3 : s.t ≤ te) :
    o.nextIter d (some te) = .error .valueError := by
  unfold Orbits.nextIter
  rw [h1]
  simp only []
  rw [h2]
  simp only []
  rw [if_pos h3]

/-- Witness for C3: the second iteration window of a width-three-days,
step-two-days outer iteration starts at minute 100, inside the stretch the
previous step already emitted up to minute 104, so its first `next()`
raises ValueError. -/
theorem orbits_overlap_rejection_witness :
    overlapNav.nextIter overlapData (some 104) = .error .valueError :=
  @orbits_overlap_rejection overlapNav { overlapNav with pos := some 0 }
    overlapData 104 { t := 100, day := 2, val := 0 }
    (by decide) (by decide) (by decide)

/-- C8: two navigator objects with the same attribute set are equal
precisely when they have the same orbit_info, the same current orbit
number and identical selected data; a navigator is never equal to an
object of a different concrete type, and an object from which an
attribute was removed or to which one was added (hence with a different
attribute set) is never equal to the original. -/
theorem orbits_equality_semantics (a b : OrbitsFull) (tag : String) :
    (a.attrs = b.attrs →
      (OrbitsFull.equals a (.orbitsVal b) = true ↔
        a.info = b.info ∧ a.current = b.current ∧ a.selData = b.selData)) ∧
    OrbitsFull.equals a (.otherVal tag) = false ∧
    (a.attrs ≠ b.attrs → OrbitsFull.equals a (.orbitsVal b) = false) := by
  refine ⟨?_, rfl, ?_⟩
  · intro hat
    unfold OrbitsFull.equals
    simp [hat]
  · intro hat
    unfold OrbitsFull.equals
    simp [hat]

/-- Witness for C8: a concrete navigator object equals an identical copy,
never equals a value of another concrete type, and never equals the copy
with the orbit_index attribute deleted. -/
theorem orbits_equality_semantics_witness :
    OrbitsFull.equals navObjA (.orbitsVal navObjA) = true ∧
    OrbitsFull.equals navObjA (.otherVal "Instrument") = false ∧
    OrbitsFull.equals navObjA (.orbitsVal navObjMissing) = false := by
  have h1 := orbits_equality_semantics navObjA navObjA "Instrument"
  have h2 := orbits_equality_semantics navObjA navObjMissing "Instrument"
  exact ⟨(h1.1 rfl).mpr ⟨rfl, rfl, rfl⟩, h1.2.1, h2.2.2 (by decide)⟩

/-- C9: for an unpositioned navigator object, re-evaluating its
representation against the same owner construction rebuilds a navigator
equal to the original — only the orbit_info configuration is encoded, not
selected data or timestamps — and the representation of a copy is
identical to the representation of the original. -/
theorem orbits_repr_roundtrip (o : OrbitsFull)
    (h0 : o.current = 0) (hsel : o.selData = none)
    (hattrs : o.attrs = stdAttrs) :
    (rebuildFromRepr o.reprData).equals (.orbitsVal o) = true ∧
    o.copy.reprStr = o.reprStr ∧
    o.copy.reprData = o.reprData := by
  refine ⟨?_, rfl, rfl⟩
  obtain ⟨oi, oo, oc, os, oa⟩ := o
  obtain ⟨ii, ik, ip⟩ := oi
  simp only at h0 hsel hattrs
  subst h0
  subst hsel
  subst hattrs
  unfold rebuildFromRepr OrbitsFull.reprData OrbitsFull.equals
  simp

/-- Witness for C9: rebuilding the concrete unpositioned navigator object
from its representation yields an equal object, and a copy prints the
identical representation. -/
theorem orbits_repr_roundtrip_witness :
    (rebuildFromRepr navObjA.reprData).equals (.orbitsVal navObjA) = true ∧
    navObjA.copy.reprStr = navObjA.reprStr ∧
    navObjA.copy.reprData = navObjA.reprData :=
  orbits_repr_roundtrip navObjA rfl rfl rfl
